import Mathlib

/-!
Shallow embedding of the conversation-orchestration core of the
philosophical-dialogue server (`src/app.py`): the persona catalogs, the
prompt composer `DialogueGenerator.create_prompt`, the streaming
generation loop `DialogueGenerator.generate_stream`, and the SocketIO
handlers `handle_start_dialogue` / `handle_continue_dialogue` together
with the background threads `generate_opening` / `generate_continuation`.

Python dictionaries holding process-wide state are modelled as functions
`String → Option Conversation`; a Python exception that escapes a
background thread is modelled by the thread body returning the state and
events accumulated so far (the thread dies, mutations already performed
stay).  Timestamps and the artificial `time.sleep` pacing are omitted:
no claim mentions them.
-/

namespace DriftwoodApp

/-- Speaker roles of the specification: "first" / "second".  The code
stores the speaker as the integer 1 or 2; `speakerRole` is the
spec-to-code mapping. -/
inductive Role where
  | first
  | second
deriving DecidableEq, Repr

/-- Speaker integers used by the code (1 and 2) mapped to spec roles. -/
def speakerRole (n : Nat) : Role :=
  if n = 1 then Role.first else Role.second

/-- One history entry appended by `generate_stream`:
`{'speaker': speaker, 'content': full_content, 'timestamp': ...}`
(timestamp omitted). -/
structure Turn where
  speaker : Nat
  content : String
deriving DecidableEq, Repr

/-- Role of a turn, derived from its stored speaker integer. -/
def Turn.role (t : Turn) : Role := speakerRole t.speaker

/-- The `data` dictionary passed to `start_dialogue` and stored as the
conversation config.  A missing key is `none`; reading a missing key in
the code raises `KeyError`. -/
structure Config where
  philosopher1 : Option String
  author1 : Option String
  model1 : Option String
  philosopher2 : Option String
  author2 : Option String
  model2 : Option String
  topic : Option String
deriving DecidableEq, Repr

/-- A config with every required field present. -/
def Config.ofFull (p1 a1 m1 p2 a2 m2 t : String) : Config :=
  ⟨some p1, some a1, some m1, some p2, some a2, some m2, some t⟩

/-- One entry of `active_conversations`:
`{'id': ..., 'config': data, 'history': [], 'created_at': ..., 'exchange_count': 0}`
(id key and timestamp omitted; the id is the key in the table). -/
structure Conversation where
  config : Config
  history : List Turn
  exchange_count : Nat
deriving DecidableEq, Repr

/-- The process-wide `active_conversations` dictionary. -/
def AppState := String → Option Conversation

/-- The empty `active_conversations` table at process start. -/
def emptyState : AppState := fun _ => none

/-- Dictionary assignment `active_conversations[cid] = c`. -/
def setConv (cid : String) (c : Conversation) (st : AppState) : AppState :=
  fun x => if x = cid then some c else st x

/-- The guarded append in `generate_stream`:
`if conversation_id in active_conversations: active_conversations[cid]['history'].append(...)`. -/
def appendTurn (cid : String) (t : Turn) (st : AppState) : AppState :=
  match st cid with
  | some c => setConv cid { c with history := c.history ++ [t] } st
  | none => st

/-- `active_conversations[cid]['exchange_count'] += 1` at the end of
`generate_continuation` (a missing key would raise `KeyError` and kill
the thread, leaving the state as it is — same observable result). -/
def incExchange (cid : String) (st : AppState) : AppState :=
  match st cid with
  | some c => setConv cid { c with exchange_count := c.exchange_count + 1 } st
  | none => st

/-- `active_conversations[cid]['exchange_count'] = 1` at the end of
`generate_opening`. -/
def setExchange (cid : String) (n : Nat) (st : AppState) : AppState :=
  match st cid with
  | some c => setConv cid { c with exchange_count := n } st
  | none => st

/-- Python string slicing `s[:n]` (by code points). -/
def pyTake (s : String) (n : Nat) : String := ⟨s.data.take n⟩

/-- Python exceptions that matter to the model. -/
inductive PyExn where
  | unboundLocalError (name : String)
deriving DecidableEq, Repr

/-- The `name` field of the embedded `PHILOSOPHERS` catalog
(`get_default_philosophers` in `src/app.py`), `none` on an unknown key
(`PHILOSOPHERS.get(philosopher, {})` then a missing `name`). -/
def philName : String → Option String
  | "socrates" => some "Socrates"
  | "plato" => some "Plato"
  | "aristotle" => some "Aristotle"
  | "marcus_aurelius" => some "Marcus Aurelius"
  | "buddha" => some "Siddhartha Gautama (Buddha)"
  | "confucius" => some "Confucius"
  | "descartes" => some "René Descartes"
  | "hume" => some "David Hume"
  | "kant" => some "Immanuel Kant"
  | "kierkegaard" => some "Søren Kierkegaard"
  | "nietzsche" => some "Friedrich Nietzsche"
  | "wittgenstein" => some "Ludwig Wittgenstein"
  | "sartre" => some "Jean-Paul Sartre"
  | "de_beauvoir" => some "Simone de Beauvoir"
  | "arendt" => some "Hannah Arendt"
  | _ => none

/-- The `era` field of the embedded `PHILOSOPHERS` catalog. -/
def philEra : String → Option String
  | "socrates" => some "Ancient Greek (470-399 BCE)"
  | "plato" => some "Ancient Greek (428-348 BCE)"
  | "aristotle" => some "Ancient Greek (384-322 BCE)"
  | "marcus_aurelius" => some "Roman (121-180 CE)"
  | "buddha" => some "Ancient Indian (563-483 BCE)"
  | "confucius" => some "Ancient Chinese (551-479 BCE)"
  | "descartes" => some "17th century (1596-1650)"
  | "hume" => some "18th century Scottish (1711-1776)"
  | "kant" => some "18th century German (1724-1804)"
  | "kierkegaard" => some "19th century Danish (1813-1855)"
  | "nietzsche" => some "19th century German (1844-1900)"
  | "wittgenstein" => some "20th century Austrian-British (1889-1951)"
  | "sartre" => some "20th century French (1905-1980)"
  | "de_beauvoir" => some "20th century French (1908-1986)"
  | "arendt" => some "20th century German-American (1906-1975)"
  | _ => none

/-- The `name` field of the embedded `AUTHORS` catalog
(`get_default_authors` in `src/app.py`). -/
def authName : String → Option String
  | "austen" => some "Jane Austen"
  | "dickens" => some "Charles Dickens"
  | "wilde" => some "Oscar Wilde"
  | "hemingway" => some "Ernest Hemingway"
  | "woolf" => some "Virginia Woolf"
  | "joyce" => some "James Joyce"
  | "kafka" => some "Franz Kafka"
  | "tolkien" => some "J.R.R. Tolkien"
  | "vonnegut" => some "Kurt Vonnegut"
  | "borges" => some "Jorge Luis Borges"
  | "marquez" => some "Gabriel García Márquez"
  | "baldwin" => some "James Baldwin"
  | "calvino" => some "Italo Calvino"
  | "morrison" => some "Toni Morrison"
  | "le_guin" => some "Ursula K. Le Guin"
  | "murakami" => some "Haruki Murakami"
  | "ishiguro" => some "Kazuo Ishiguro"
  | "atwood" => some "Margaret Atwood"
  | "butler" => some "Octavia Butler"
  | "pynchon" => some "Thomas Pynchon"
  | _ => none

/-- `PHILOSOPHERS.get(philosopher, {}).get('name', philosopher)`. -/
def philGetName (k : String) : String := (philName k).getD k

/-- `PHILOSOPHERS.get(philosopher, {}).get('era', '')`. -/
def philGetEra (k : String) : String := (philEra k).getD ""

/-- `AUTHORS.get(author, {}).get('name', author)`. -/
def authGetName (k : String) : String := (authName k).getD k

/-- The `front_matter` literal assigned inside the response branch of
`create_prompt` (src/app.py lines 330-350, typos preserved).  Crucially
it is a local variable of that branch only. -/
def frontMatter : String :=
  "Never mention the name of the philospher. You are not describing\ntheir views, instead you are embodying them.\n\nNever mention the name of the author. You are not describing\ntheir views, instead you are embodying them.\n\nNote that of greatest importance is to distingusih that your task is to embody\n    the ideas/stance/arguments/beliefs/values of the philosopher (or likely ideas on the topic)\n    NOT their writing/communication style at all!\n\nNote that of greatest importance is to distingusih that your task is to embody\n    the writing/communication/dialogue style of the author (acting as a character in one of their books might)\n    NOT their ideas/stance/arguments/beliefs/values at all!\n\nSeparate components, the philosopher speaking through the author.\nThe author studying the philosopher thoroughly and creating a character in one of their novels portraying them covertly.\n\nThere is no commentary around the writing, only the content itself. The dialogue is not quoted. There is no narrator or descriptions of setting other than what naturally flows from the conversation.\n\nThis is conversational. Brief bursts of dialogue. One to three sentences. Posing questions to each other. Answering the others questions and moving on with a believable and interesting segue.\n"

/-- Everything of the response-branch f-string of `create_prompt` that
comes before the opening quote of the embedded previous statement. -/
def responseHeader (philosopher author : String) : String :=
  "You are " ++ philGetName philosopher ++ ", the " ++ philGetEra philosopher ++
  " philosopher.\nExpress your philosophical ideas through the author " ++
  authGetName author ++
  "\x27s literary style.\n\n" ++ frontMatter ++
  "\n\nPrevious statement to respond to:\n"

/-- Everything of the response-branch f-string of `create_prompt` that
comes after the closing quote of the embedded previous statement. -/
def responseFooter (author topic : String) : String :=
  "\n\nTopic: \"" ++ topic ++
  "\"\n\nRespond in 2-3 sentences that:\n1. Engage directly with the previous philosophical position\n2. Present your perspective using " ++
  authGetName author ++
  "\x27s narrative techniques\n3. Use literary style to make philosophical concepts accessible\n4. Advance the dialogue while maintaining philosophical authenticity\n\nWrite in a style both philosophically authentic and literarily engaging."

/-- The full response-branch f-string of `create_prompt`
(src/app.py lines 352-368). -/
def responsePrompt (philosopher author topic lastContent : String) : String :=
  responseHeader philosopher author ++ "\"" ++ lastContent ++ "\"" ++
  responseFooter author topic

/-- `DialogueGenerator.create_prompt` (src/app.py lines 318-386).

The response branch (`if is_response and history:`) reads
`history[-1].get('content', '')[:500]`, assigns `front_matter` and
builds the response prompt.  The opening branch builds an f-string that
interpolates `front_matter`, but `front_matter` is assigned only in the
response branch, so every call that reaches the opening branch (role =
opening, or a response call with empty history) raises
`UnboundLocalError` — modelled as `Except.error`. -/
def createPrompt (philosopher author topic : String) (history : List Turn)
    (is_response : Bool) : Except PyExn String :=
  if is_response && !history.isEmpty then
    let lastContent :=
      pyTake (match history.getLast? with
              | some t => t.content
              | none => "") 500
    Except.ok (responsePrompt philosopher author topic lastContent)
  else
    Except.error (PyExn.unboundLocalError "front_matter")

/-- One line of the Ollama streaming response consumed by the loop in
`generate_stream`: either valid JSON carrying a `response` text delta,
valid JSON without a `response` key, or a line `json.loads` rejects. -/
inductive StreamLine where
  | fragment (text : String)
  | noResponseField
  | invalidJson
deriving DecidableEq, Repr

/-- The lazy fragment stream returned by the generation backend.
`lines` are the lines the iteration consumes; `err = some msg` means the
request or the iteration raises with message `msg` after those lines
(mid-stream failure), `err = none` is a normal end of stream. -/
structure GenStream where
  lines : List StreamLine
  err : Option String
deriving DecidableEq, Repr

/-- SocketIO events broadcast with `room=conversation_id`. -/
inductive Event where
  | generationStart (speaker : Nat)
  | messageChunk (speaker : Nat) (content : String)
  | generationComplete (speaker : Nat) (content : String)
  | generationError (message : String)
deriving DecidableEq, Repr

/-- Synchronous `emit` replies sent to the requesting client only. -/
inductive Reply where
  | dialogueStarted (conversationId : String)
  | generationError (message : String)
deriving DecidableEq, Repr

/-- The `for line in response.iter_lines():` loop body of
`generate_stream`: a valid JSON line with a `response` key appends its
text to `full_content` and emits a `message_chunk`; a line without the
key and a line that fails `json.loads` are both skipped. -/
def streamFold (cid : String) (speaker : Nat) :
    List StreamLine → String × List (String × Event)
  | [] => ("", [])
  | StreamLine.fragment s :: ls =>
    let r := streamFold cid speaker ls
    (s ++ r.1, (cid, Event.messageChunk speaker s) :: r.2)
  | StreamLine.noResponseField :: ls => streamFold cid speaker ls
  | StreamLine.invalidJson :: ls => streamFold cid speaker ls

/-- `DialogueGenerator.generate_stream` (src/app.py lines 388-463).
Emits `generation_start`, consumes the stream, then either appends the
accumulated turn and emits `generation_complete` (normal termination) or
— when the request or iteration raises — is caught by the surrounding
`except`, emits `generation_error` to the conversation room, appends
nothing, and returns `None`. -/
def generateStream (cid : String) (speaker : Nat) (s : GenStream)
    (st : AppState) : AppState × List (String × Event) × Option String :=
  let folded := streamFold cid speaker s.lines
  match s.err with
  | some msg =>
    (st,
     ((cid, Event.generationStart speaker) :: folded.2) ++
       [(cid, Event.generationError msg)],
     none)
  | none =>
    (appendTurn cid ⟨speaker, folded.1⟩ st,
     ((cid, Event.generationStart speaker) :: folded.2) ++
       [(cid, Event.generationComplete speaker folded.1)],
     some folded.1)

/-- Result of one control-plane handler invocation: the table after the
handler and its (sequentially completed) background thread, the events
broadcast to conversation rooms, and the replies emitted to the caller. -/
structure OpResult where
  state : AppState
  broadcasts : List (String × Event)
  replies : List Reply

/-- The `generate_opening` background thread of `handle_start_dialogue`
(src/app.py lines 544-584).  An uncaught exception (a `KeyError` on a
missing config field or the `UnboundLocalError` out of `create_prompt`)
kills the thread, keeping whatever was done so far. -/
def startThread (cid : String) (cfg : Config) (s1 s2 : GenStream)
    (st : AppState) : AppState × List (String × Event) :=
  match cfg.philosopher1 with
  | none => (st, [])
  | some p1 =>
    match cfg.author1 with
    | none => (st, [])
    | some a1 =>
      match cfg.topic with
      | none => (st, [])
      | some topic =>
        match createPrompt p1 a1 topic [] false with
        | Except.error _ => (st, [])
        | Except.ok _prompt1 =>
          match cfg.model1 with
          | none => (st, [])
          | some _m1 =>
            let r1 := generateStream cid 1 s1 st
            match r1.1 cid with
            | none => (r1.1, r1.2.1)
            | some conv1 =>
              match cfg.philosopher2 with
              | none => (r1.1, r1.2.1)
              | some p2 =>
                match cfg.author2 with
                | none => (r1.1, r1.2.1)
                | some a2 =>
                  match createPrompt p2 a2 topic conv1.history true with
                  | Except.error _ => (r1.1, r1.2.1)
                  | Except.ok _prompt2 =>
                    match cfg.model2 with
                    | none => (r1.1, r1.2.1)
                    | some _m2 =>
                      let r2 := generateStream cid 2 s2 r1.1
                      (setExchange cid 1 r2.1, r1.2.1 ++ r2.2.1)

/-- `handle_start_dialogue` (src/app.py lines 519-593): allocates an id,
registers the conversation unconditionally (no validation of `data`),
replies `dialogue_started`, then runs `generate_opening`. -/
def startOp (cid : String) (cfg : Config) (s1 s2 : GenStream)
    (st : AppState) : OpResult :=
  let st0 := setConv cid ⟨cfg, [], 0⟩ st
  let r := startThread cid cfg s1 s2 st0
  ⟨r.1, r.2, [Reply.dialogueStarted cid]⟩

/-- Speaker selection of `generate_continuation`:
`speaker = 1 if len(history) % 2 == 0 else 2`. -/
def spkOfLen (n : Nat) : Nat :=
  if n % 2 = 0 then 1 else 2

/-- One iteration of the `for i in range(2)` loop of
`generate_continuation` (src/app.py lines 614-646): pick the speaker by
parity of the current history length, read the speaker's config fields,
compose a response prompt over the current history, stream-generate, and
re-read the history.  `Except.error` is a crash that kills the thread
(with the state and events accumulated so far); `Except.ok` carries the
re-read history for the next iteration. -/
def contIter (cid : String) (cfg : Config) (hist : List Turn)
    (s : GenStream) (st : AppState) :
    Except (AppState × List (String × Event))
      (AppState × List (String × Event) × List Turn) :=
  let speaker := spkOfLen hist.length
  match (if speaker = 1 then cfg.philosopher1 else cfg.philosopher2) with
  | none => Except.error (st, [])
  | some philosopher =>
    match (if speaker = 1 then cfg.author1 else cfg.author2) with
    | none => Except.error (st, [])
    | some author =>
      match (if speaker = 1 then cfg.model1 else cfg.model2) with
      | none => Except.error (st, [])
      | some _model =>
        match cfg.topic with
        | none => Except.error (st, [])
        | some topic =>
          match createPrompt philosopher author topic hist true with
          | Except.error _ => Except.error (st, [])
          | Except.ok _prompt =>
            let r := generateStream cid speaker s st
            match r.1 cid with
            | none => Except.error (r.1, r.2.1)
            | some conv => Except.ok (r.1, r.2.1, conv.history)

/-- The `generate_continuation` background thread
(src/app.py lines 614-649): two loop iterations, then
`exchange_count += 1`. -/
def continueThread (cid : String) (cfg : Config) (hist : List Turn)
    (s0 s1 : GenStream) (st : AppState) :
    AppState × List (String × Event) :=
  match contIter cid cfg hist s0 st with
  | Except.error r => r
  | Except.ok (st1, evs1, hist1) =>
    match contIter cid cfg hist1 s1 st1 with
    | Except.error (st2, evs2) => (st2, evs1 ++ evs2)
    | Except.ok (st2, evs2, _) => (incExchange cid st2, evs1 ++ evs2)

/-- `handle_continue_dialogue` (src/app.py lines 595-658): an unknown
conversation id gets a `generation_error` reply and nothing else (the
commented-out exchange cap is absent from the live code); otherwise
`generate_continuation` runs over the stored config and history. -/
def continueOp (cid : String) (s0 s1 : GenStream) (st : AppState) :
    OpResult :=
  match st cid with
  | none => ⟨st, [], [Reply.generationError "Conversation not found"]⟩
  | some conv =>
    let r := continueThread cid conv.config conv.history s0 s1 st
    ⟨r.1, r.2, []⟩

/-- A control-plane call, with the backend outcomes its generations
would observe. -/
inductive Op where
  | startD (cid : String) (cfg : Config) (s1 s2 : GenStream)
  | contD (cid : String) (s0 s1 : GenStream)

/-- Effect of one call on the conversation table. -/
def runOp (st : AppState) : Op → AppState
  | Op.startD cid cfg s1 s2 => (startOp cid cfg s1 s2 st).state
  | Op.contD cid s0 s1 => (continueOp cid s0 s1 st).state

/-- The table after a sequence of calls, each completing before the next
is issued, starting from the empty process-wide table. -/
def runOps (ops : List Op) : AppState :=
  ops.foldl runOp emptyState

/-- The scenario config of the spec: topic "free will",
socrates/hemingway against kant/woolf, with two of the models the
startup banner lists. -/
def scenarioConfig : Config :=
  Config.ofFull "socrates" "hemingway" "llama3.2:3b" "kant" "woolf"
    "mistral:7b" "free will"

/-- A `data` dictionary missing every required field. -/
def emptyConfig : Config :=
  ⟨none, none, none, none, none, none, none⟩

/-- A healthy backend stream delivering one fragment. -/
def sampleStream : GenStream :=
  ⟨[StreamLine.fragment "Man is born free."], none⟩

/-- The spec's alternation invariant, phrased over the stored speaker
integers: the turn at index `i` was spoken by the speaker that the
parity of `i` selects (so roles read "first", "second", "first", …). -/
def parityAlternating (h : List Turn) : Prop :=
  ∀ i (hi : i < h.length), (h.get ⟨i, hi⟩).speaker = spkOfLen i

/-- Every conversation registered in the table has a parity-alternating
history. -/
def AlternationInv (st : AppState) : Prop :=
  ∀ cid c, st cid = some c → parityAlternating c.history

@[simp]
theorem setConv_self (cid : String) (c : Conversation) (st : AppState) :
    setConv cid c st cid = some c := by
  simp [setConv]

theorem setConv_ne (cid x : String) (c : Conversation) (st : AppState)
    (hx : x ≠ cid) : setConv cid c st x = st x := by
  simp [setConv, hx]

theorem createPrompt_opening (philosopher author topic : String)
    (history : List Turn) :
    createPrompt philosopher author topic history false =
      Except.error (PyExn.unboundLocalError "front_matter") :=
  rfl

theorem createPrompt_response_nil (philosopher author topic : String) :
    createPrompt philosopher author topic [] true =
      Except.error (PyExn.unboundLocalError "front_matter") :=
  rfl

theorem createPrompt_response_cons (philosopher author topic : String)
    (x : Turn) (xs : List Turn) :
    createPrompt philosopher author topic (x :: xs) true =
      Except.ok (responsePrompt philosopher author topic
        (pyTake ((x :: xs).getLast (List.cons_ne_nil x xs)).content 500)) := by
  rw [createPrompt]
  simp only [List.isEmpty_cons, Bool.not_false, Bool.and_self, if_true]
  rw [List.getLast?_eq_getLast (x :: xs) (List.cons_ne_nil x xs)]

theorem startThread_eq (cid : String) (cfg : Config) (s1 s2 : GenStream)
    (st : AppState) : startThread cid cfg s1 s2 st = (st, []) := by
  unfold startThread
  cases cfg.philosopher1 with
  | none => rfl
  | some p1 =>
    cases cfg.author1 with
    | none => rfl
    | some a1 =>
      cases cfg.topic with
      | none => rfl
      | some topic => rfl

theorem startOp_eq (cid : String) (cfg : Config) (s1 s2 : GenStream)
    (st : AppState) :
    startOp cid cfg s1 s2 st =
      ⟨setConv cid ⟨cfg, [], 0⟩ st, [], [Reply.dialogueStarted cid]⟩ := by
  simp only [startOp, startThread_eq]

theorem streamFold_invalidJson (cid : String) (speaker : Nat)
    (pre suf : List StreamLine) :
    streamFold cid speaker (pre ++ StreamLine.invalidJson :: suf) =
      streamFold cid speaker (pre ++ suf) := by
  induction pre with
  | nil => rfl
  | cons x xs ih => cases x <;> simp [streamFold, ih]

theorem streamFold_noResponseField (cid : String) (speaker : Nat)
    (pre suf : List StreamLine) :
    streamFold cid speaker (pre ++ StreamLine.noResponseField :: suf) =
      streamFold cid speaker (pre ++ suf) := by
  induction pre with
  | nil => rfl
  | cons x xs ih => cases x <;> simp [streamFold, ih]

/-- C1: the spec scenario — create with topic "free will",
socrates/hemingway vs kant/woolf, then start — is claimed to append
exactly 2 turns with roles ["first", "second"] and leave the exchange
counter at 1.  The code instead appends zero turns and leaves the
counter at 0, broadcasting nothing, even with a healthy backend: the
opening branch of `create_prompt` references `front_matter`, which is
assigned only in the response branch, so the background thread dies with
`UnboundLocalError` before any generation. -/
theorem start_scenario_appends_zero_turns :
    (startOp "conv-1" scenarioConfig sampleStream sampleStream
        emptyState).state "conv-1" =
      some ⟨scenarioConfig, [], 0⟩ ∧
    (startOp "conv-1" scenarioConfig sampleStream sampleStream
        emptyState).broadcasts = [] := by
  rw [startOp_eq]
  exact ⟨by simp, rfl⟩

/-- C6 (counterexample): on a config missing every required
persona/topic/model field, creation is claimed to report a validation
error and register no conversation record.  The code registers the
record (with the malformed config, empty history and counter 0) and
replies `dialogue_started`, not a validation error. -/
theorem malformed_config_registers_record :
    (startOp "c0" emptyConfig sampleStream sampleStream
        emptyState).state "c0" =
      some ⟨emptyConfig, [], 0⟩ ∧
    (startOp "c0" emptyConfig sampleStream sampleStream
        emptyState).replies = [Reply.dialogueStarted "c0"] := by
  rw [startOp_eq]
  exact ⟨by simp, rfl⟩

/-- C6 (amended): conversation creation performs no validation and
never fails: for every config — malformed or not — it registers a
record with the new identifier, empty history and exchange counter 0,
replies `dialogue_started` (never a validation error), and broadcasts
nothing; the background thread dies before generating anything. -/
theorem start_registers_record_without_validation (cid : String)
    (cfg : Config) (s1 s2 : GenStream) (st : AppState) :
    startOp cid cfg s1 s2 st =
      ⟨setConv cid ⟨cfg, [], 0⟩ st, [], [Reply.dialogueStarted cid]⟩ :=
  startOp_eq cid cfg s1 s2 st

/-- C8: prompt composition on keys absent from the catalogs is claimed
not to raise for either role.  The response role indeed composes a
prompt (the `.get` defaults make the missing profile fields empty), but
the opening role raises `UnboundLocalError` for any key — known or
unknown — because `front_matter` is only assigned in the response
branch. -/
theorem opening_prompt_raises_unbound_local :
    createPrompt "unknown_philosopher" "unknown_author" "free will" []
        false =
      Except.error (PyExn.unboundLocalError "front_matter") ∧
    createPrompt "unknown_philosopher" "unknown_author" "free will"
        [⟨1, "prior turn"⟩] false =
      Except.error (PyExn.unboundLocalError "front_matter") ∧
    ∃ p, createPrompt "unknown_philosopher" "unknown_author" "free will"
        [⟨1, "prior turn"⟩] true = Except.ok p :=
  ⟨rfl, rfl, ⟨_, rfl⟩⟩

/-- C9: for every non-empty history, the response-role prompt embeds,
verbatim and between double quotes, the most recent turn's content
truncated to its first 500 characters; truncation is the identity on
content shorter than 500 characters. -/
theorem response_prompt_embeds_truncated_content
    (philosopher author topic : String) (h : List Turn) (hne : h ≠ []) :
    (∃ pre post, createPrompt philosopher author topic h true =
        Except.ok (pre ++ "\"" ++ pyTake (h.getLast hne).content 500 ++
          "\"" ++ post)) ∧
    ((h.getLast hne).content.length < 500 →
      pyTake (h.getLast hne).content 500 = (h.getLast hne).content) := by
  constructor
  · refine ⟨responseHeader philosopher author,
      responseFooter author topic, ?_⟩
    cases h with
    | nil => exact absurd rfl hne
    | cons x xs =>
      rw [createPrompt_response_cons]
      rfl
  · intro hlen
    show (⟨(h.getLast hne).content.data.take 500⟩ : String) = _
    rw [List.take_of_length_le (Nat.le_of_lt hlen)]

/-- Witness for C9 at a concrete input: a one-turn history whose last
content is "hello". -/
theorem response_prompt_embeds_truncated_content_witness :
    ([(⟨1, "hello"⟩ : Turn)] ≠ []) ∧
    ((∃ pre post, createPrompt "socrates" "hemingway" "truth"
        [⟨1, "hello"⟩] true =
        Except.ok (pre ++ "\"" ++
          pyTake (([(⟨1, "hello"⟩ : Turn)].getLast
            (List.cons_ne_nil _ _)).content) 500 ++ "\"" ++ post)) ∧
      ((([(⟨1, "hello"⟩ : Turn)].getLast
          (List.cons_ne_nil _ _)).content).length < 500 →
        pyTake (([(⟨1, "hello"⟩ : Turn)].getLast
          (List.cons_ne_nil _ _)).content) 500 =
          ([(⟨1, "hello"⟩ : Turn)].getLast
            (List.cons_ne_nil _ _)).content)) :=
  ⟨List.cons_ne_nil _ _,
    response_prompt_embeds_truncated_content "socrates" "hemingway"
      "truth" [⟨1, "hello"⟩] (List.cons_ne_nil _ _)⟩

/-- C4: a generation that fails mid-stream appends no turn (not even a
partial one from the fragments already received), leaves the whole
conversation table — config, histories, registrations — untouched,
emits a `generation_error` event scoped to that conversation's room,
and returns `None`. -/
theorem generation_failure_leaves_state_untouched (cid : String)
    (speaker : Nat) (lines : List StreamLine) (msg : String)
    (st : AppState) :
    (generateStream cid speaker ⟨lines, some msg⟩ st).1 = st ∧
    (cid, Event.generationError msg) ∈
      (generateStream cid speaker ⟨lines, some msg⟩ st).2.1 ∧
    (generateStream cid speaker ⟨lines, some msg⟩ st).2.2 = none := by
  refine ⟨rfl, ?_, rfl⟩
  simp [generateStream]

/-- C10: a backend stream line that is not valid JSON, or whose JSON
object lacks a `response` field, is silently skipped: the whole outcome
of the generation — appended turn, emitted events, returned content —
is exactly as if the line had never been produced. -/
theorem junk_stream_line_silently_skipped (cid : String) (speaker : Nat)
    (pre suf : List StreamLine) (st : AppState) :
    generateStream cid speaker ⟨pre ++ StreamLine.invalidJson :: suf, none⟩
        st =
      generateStream cid speaker ⟨pre ++ suf, none⟩ st ∧
    generateStream cid speaker
        ⟨pre ++ StreamLine.noResponseField :: suf, none⟩ st =
      generateStream cid speaker ⟨pre ++ suf, none⟩ st := by
  constructor
  · unfold generateStream
    rw [streamFold_invalidJson]
  · unfold generateStream
    rw [streamFold_noResponseField]

theorem spkOfLen_even {n : Nat} (h : n % 2 = 0) : spkOfLen n = 1 :=
  if_pos h

theorem spkOfLen_odd {n : Nat} (h : ¬n % 2 = 0) : spkOfLen n = 2 :=
  if_neg h

theorem speakerRole_spkOfLen (n : Nat) :
    speakerRole (spkOfLen n) =
      (if n % 2 = 0 then Role.first else Role.second) := by
  by_cases h : n % 2 = 0 <;>
    simp [spkOfLen, speakerRole, h]

theorem contIter_ok (cid : String) (p1 a1 m1 p2 a2 m2 t : String)
    (hist : List Turn) (lines : List StreamLine) (st : AppState)
    (conv : Conversation) (hst : st cid = some conv)
    (hh : conv.history = hist) (hne : hist ≠ []) :
    contIter cid (Config.ofFull p1 a1 m1 p2 a2 m2 t) hist ⟨lines, none⟩
        st =
      Except.ok
        (setConv cid
          { conv with history := hist ++
              [⟨spkOfLen hist.length,
                (streamFold cid (spkOfLen hist.length) lines).1⟩] } st,
         ((cid, Event.generationStart (spkOfLen hist.length)) ::
             (streamFold cid (spkOfLen hist.length) lines).2) ++
           [(cid, Event.generationComplete (spkOfLen hist.length)
               (streamFold cid (spkOfLen hist.length) lines).1)],
         hist ++
           [⟨spkOfLen hist.length,
             (streamFold cid (spkOfLen hist.length) lines).1⟩]) := by
  obtain ⟨x, xs, rfl⟩ : ∃ x xs, hist = x :: xs := by
    cases hist with
    | nil => exact absurd rfl hne
    | cons x xs => exact ⟨x, xs, rfl⟩
  by_cases hpar : (x :: xs).length % 2 = 0
  · rw [spkOfLen_even hpar]
    unfold contIter
    rw [spkOfLen_even hpar]
    simp only [Config.ofFull, if_pos rfl, createPrompt_response_cons,
      generateStream, appendTurn, hst, hh]
    simp [setConv_self]
  · rw [spkOfLen_odd hpar]
    unfold contIter
    rw [spkOfLen_odd hpar]
    simp only [Config.ofFull, createPrompt_response_cons,
      generateStream, appendTurn, hst, hh]
    simp [setConv_self]

theorem contIter_err (cid : String) (p1 a1 m1 p2 a2 m2 t : String)
    (hist : List Turn) (lines : List StreamLine) (msg : String)
    (st : AppState) (conv : Conversation) (hst : st cid = some conv)
    (hh : conv.history = hist) (hne : hist ≠ []) :
    contIter cid (Config.ofFull p1 a1 m1 p2 a2 m2 t) hist
        ⟨lines, some msg⟩ st =
      Except.ok
        (st,
         ((cid, Event.generationStart (spkOfLen hist.length)) ::
             (streamFold cid (spkOfLen hist.length) lines).2) ++
           [(cid, Event.generationError msg)],
         hist) := by
  obtain ⟨x, xs, rfl⟩ : ∃ x xs, hist = x :: xs := by
    cases hist with
    | nil => exact absurd rfl hne
    | cons x xs => exact ⟨x, xs, rfl⟩
  by_cases hpar : (x :: xs).length % 2 = 0
  · rw [spkOfLen_even hpar]
    unfold contIter
    rw [spkOfLen_even hpar]
    simp only [Config.ofFull, if_pos rfl, createPrompt_response_cons,
      generateStream, hst, hh]
    simp
  · rw [spkOfLen_odd hpar]
    unfold contIter
    rw [spkOfLen_odd hpar]
    simp only [Config.ofFull, createPrompt_response_cons,
      generateStream, hst, hh]
    simp

/-- C7: a continue call on a conversation identifier absent from the
process-wide table reports "Conversation not found" to the caller,
changes no state, and broadcasts no events. -/
theorem continue_unknown_id_reports_not_found (cid : String)
    (s0 s1 : GenStream) (st : AppState) (h : st cid = none) :
    continueOp cid s0 s1 st =
      ⟨st, [], [Reply.generationError "Conversation not found"]⟩ := by
  unfold continueOp
  rw [h]

/-- Witness for C7 at a concrete input: the empty table knows no
conversation "ghost". -/
theorem continue_unknown_id_reports_not_found_witness :
    emptyState "ghost" = none ∧
    continueOp "ghost" sampleStream sampleStream emptyState =
      ⟨emptyState, [], [Reply.generationError "Conversation not found"]⟩ :=
  ⟨rfl, continue_unknown_id_reports_not_found "ghost" sampleStream
    sampleStream emptyState rfl⟩

/-- C2: a continue call on an existing conversation whose two
generations both terminate normally appends exactly two turns — their
speakers chosen by parity of the current history length, with even
length mapping to role "first" and odd to "second" — and increments the
exchange counter by exactly one (once for the pair). -/
theorem continue_success_appends_two_turns (cid : String)
    (p1 a1 m1 p2 a2 m2 t : String) (st : AppState) (conv : Conversation)
    (l0 l1 : List StreamLine) (hst : st cid = some conv)
    (hcfg : conv.config = Config.ofFull p1 a1 m1 p2 a2 m2 t)
    (hne : conv.history ≠ []) :
    ∃ c, (continueOp cid ⟨l0, none⟩ ⟨l1, none⟩ st).state cid = some c ∧
      c.config = conv.config ∧
      c.history = conv.history ++
        [⟨spkOfLen conv.history.length,
          (streamFold cid (spkOfLen conv.history.length) l0).1⟩,
         ⟨spkOfLen (conv.history.length + 1),
          (streamFold cid (spkOfLen (conv.history.length + 1)) l1).1⟩] ∧
      c.exchange_count = conv.exchange_count + 1 ∧
      ∀ n, speakerRole (spkOfLen n) =
        (if n % 2 = 0 then Role.first else Role.second) := by
  obtain ⟨cfg0, hist0, n0⟩ := conv
  dsimp only at hcfg hne hst ⊢
  subst hcfg
  have h1 := contIter_ok cid p1 a1 m1 p2 a2 m2 t hist0 l0 st
    ⟨Config.ofFull p1 a1 m1 p2 a2 m2 t, hist0, n0⟩ hst rfl hne
  dsimp only at h1
  have hne1 : hist0 ++
      [(⟨spkOfLen hist0.length,
        (streamFold cid (spkOfLen hist0.length) l0).1⟩ : Turn)] ≠
      [] := by simp
  have h2 := contIter_ok cid p1 a1 m1 p2 a2 m2 t
    (hist0 ++
      [⟨spkOfLen hist0.length,
        (streamFold cid (spkOfLen hist0.length) l0).1⟩])
    l1
    (setConv cid
      ⟨Config.ofFull p1 a1 m1 p2 a2 m2 t,
        hist0 ++
          [⟨spkOfLen hist0.length,
            (streamFold cid (spkOfLen hist0.length) l0).1⟩], n0⟩ st)
    ⟨Config.ofFull p1 a1 m1 p2 a2 m2 t,
      hist0 ++
        [⟨spkOfLen hist0.length,
          (streamFold cid (spkOfLen hist0.length) l0).1⟩], n0⟩
    (setConv_self _ _ _) rfl hne1
  dsimp only at h2
  unfold continueOp continueThread incExchange
  simp only [hst, h1, h2, setConv_self]
  refine ⟨_, rfl, rfl, ?_, rfl, speakerRole_spkOfLen⟩
  simp

/-- Witness table for C2 and C5: a conversation "w2" created with the
scenario config holding a two-turn history and exchange counter 1. -/
def contState2 : AppState :=
  setConv "w2" ⟨scenarioConfig, [⟨1, "alpha"⟩, ⟨2, "beta"⟩], 1⟩
    emptyState

/-- Witness for C2 at a concrete input: continuing the two-turn
conversation "w2" with two healthy streams. -/
theorem continue_success_appends_two_turns_witness :
    contState2 "w2" =
      some ⟨scenarioConfig, [⟨1, "alpha"⟩, ⟨2, "beta"⟩], 1⟩ ∧
    (⟨scenarioConfig, [⟨1, "alpha"⟩, ⟨2, "beta"⟩], 1⟩ :
        Conversation).history ≠ [] ∧
    ∃ c, (continueOp "w2" ⟨[StreamLine.fragment "Man is born free."], none⟩
        ⟨[StreamLine.fragment "Man is born free."], none⟩
        contState2).state "w2" = some c ∧
      c.config = scenarioConfig ∧
      c.history = [⟨1, "alpha"⟩, ⟨2, "beta"⟩] ++
        [⟨spkOfLen 2,
          (streamFold "w2" (spkOfLen 2)
            [StreamLine.fragment "Man is born free."]).1⟩,
         ⟨spkOfLen 3,
          (streamFold "w2" (spkOfLen 3)
            [StreamLine.fragment "Man is born free."]).1⟩] ∧
      c.exchange_count = 2 ∧
      ∀ n, speakerRole (spkOfLen n) =
        (if n % 2 = 0 then Role.first else Role.second) :=
  ⟨rfl, by simp,
    continue_success_appends_two_turns "w2" "socrates" "hemingway"
      "llama3.2:3b" "kant" "woolf" "mistral:7b" "free will" contState2
      ⟨scenarioConfig, [⟨1, "alpha"⟩, ⟨2, "beta"⟩], 1⟩
      [StreamLine.fragment "Man is born free."]
      [StreamLine.fragment "Man is born free."] rfl rfl (by simp)⟩

/-- Conversation table for the C5 counterexample: "c5" holds a one-turn
history under the scenario config. -/
def contState5 : AppState :=
  setConv "c5" ⟨scenarioConfig, [⟨1, "opening words"⟩], 1⟩ emptyState

/-- C5 (counterexample): the claim says that after a mid-stream
generation failure the orchestrator does not continue to the next
generation in the same operation, so further turns would require a new
continue call.  Here the first generation of a single continue call
fails mid-stream, yet the same call still appends a turn (produced by
the second, automatically run generation) and increments the counter. -/
theorem continue_after_failure_produces_turn :
    (continueOp "c5" ⟨[], some "Connection refused"⟩ sampleStream
        contState5).state "c5" =
      some ⟨scenarioConfig,
        [⟨1, "opening words"⟩, ⟨2, "Man is born free."⟩], 2⟩ := by
  decide

/-- C5 (amended): after the first generation of a continue operation
fails mid-stream, no turn is appended for the failed slot and a
`generation_error` is broadcast, but the operation does not stop: the
second generation still runs automatically within the same operation —
its speaker recomputed from the unchanged history parity — and the
exchange counter is still incremented. -/
theorem continue_after_failure_second_generation_runs (cid : String)
    (p1 a1 m1 p2 a2 m2 t : String) (st : AppState) (conv : Conversation)
    (l0 l1 : List StreamLine) (msg : String) (hst : st cid = some conv)
    (hcfg : conv.config = Config.ofFull p1 a1 m1 p2 a2 m2 t)
    (hne : conv.history ≠ []) :
    (∃ c, (continueOp cid ⟨l0, some msg⟩ ⟨l1, none⟩ st).state cid =
        some c ∧
      c.config = conv.config ∧
      c.history = conv.history ++
        [⟨spkOfLen conv.history.length,
          (streamFold cid (spkOfLen conv.history.length) l1).1⟩] ∧
      c.exchange_count = conv.exchange_count + 1) ∧
    (cid, Event.generationError msg) ∈
      (continueOp cid ⟨l0, some msg⟩ ⟨l1, none⟩ st).broadcasts := by
  obtain ⟨cfg0, hist0, n0⟩ := conv
  dsimp only at hcfg hne hst ⊢
  subst hcfg
  have h1 := contIter_err cid p1 a1 m1 p2 a2 m2 t hist0 l0 msg st
    ⟨Config.ofFull p1 a1 m1 p2 a2 m2 t, hist0, n0⟩ hst rfl hne
  have h2 := contIter_ok cid p1 a1 m1 p2 a2 m2 t hist0 l1 st
    ⟨Config.ofFull p1 a1 m1 p2 a2 m2 t, hist0, n0⟩ hst rfl hne
  dsimp only at h2
  unfold continueOp continueThread incExchange
  simp only [hst, h1, h2, setConv_self]
  exact ⟨⟨_, rfl, rfl, rfl, rfl⟩, by simp⟩

/-- Witness for C5's amended theorem at a concrete input: the one-turn
conversation "c5", first stream failing, second delivering a fragment. -/
theorem continue_after_failure_second_generation_runs_witness :
    contState5 "c5" =
      some ⟨scenarioConfig, [⟨1, "opening words"⟩], 1⟩ ∧
    (⟨scenarioConfig, [⟨1, "opening words"⟩], 1⟩ :
        Conversation).history ≠ [] ∧
    ((∃ c, (continueOp "c5" ⟨[], some "Connection refused"⟩
          ⟨[StreamLine.fragment "Man is born free."], none⟩
          contState5).state "c5" = some c ∧
        c.config = scenarioConfig ∧
        c.history = [⟨1, "opening words"⟩] ++
          [⟨spkOfLen 1,
            (streamFold "c5" (spkOfLen 1)
              [StreamLine.fragment "Man is born free."]).1⟩] ∧
        c.exchange_count = 2) ∧
      ("c5", Event.generationError "Connection refused") ∈
        (continueOp "c5" ⟨[], some "Connection refused"⟩
          ⟨[StreamLine.fragment "Man is born free."], none⟩
          contState5).broadcasts) :=
  ⟨rfl, by simp,
    continue_after_failure_second_generation_runs "c5" "socrates"
      "hemingway" "llama3.2:3b" "kant" "woolf" "mistral:7b" "free will"
      contState5 ⟨scenarioConfig, [⟨1, "opening words"⟩], 1⟩ []
      [StreamLine.fragment "Man is born free."] "Connection refused" rfl
      rfl (by simp)⟩

theorem parityAlternating_nil : parityAlternating [] := by
  intro i hi
  simp at hi

theorem parityAlternating_append (h : List Turn) (content : String)
    (hp : parityAlternating h) :
    parityAlternating (h ++ [⟨spkOfLen h.length, content⟩]) := by
  intro i hi
  rcases Nat.lt_or_ge i h.length with hlt | hge
  · rw [List.get_eq_getElem, List.getElem_append_left hlt]
    exact hp i hlt
  · have hieq : i = h.length := by
      have := hi
      simp only [List.length_append, List.length_cons,
        List.length_nil] at this
      omega
    rw [List.get_eq_getElem, List.getElem_concat_length _ _ _ hieq, hieq]

theorem alternationInv_empty : AlternationInv emptyState := by
  intro cid c hc
  exact absurd hc (by simp [emptyState])

theorem alternationInv_setConv (cid : String) (c : Conversation)
    (st : AppState) (hInv : AlternationInv st)
    (hc : parityAlternating c.history) :
    AlternationInv (setConv cid c st) := by
  intro x cx hx
  by_cases hxc : x = cid
  · subst hxc
    rw [setConv_self] at hx
    cases hx
    exact hc
  · rw [setConv_ne _ _ _ _ hxc] at hx
    exact hInv x cx hx

theorem alternationInv_appendTurn (cid : String) (spk : Nat)
    (content : String) (st : AppState) (hInv : AlternationInv st)
    (hspk : ∀ c, st cid = some c → spk = spkOfLen c.history.length) :
    AlternationInv (appendTurn cid ⟨spk, content⟩ st) := by
  unfold appendTurn
  cases hc : st cid with
  | none => exact hInv
  | some c =>
    refine alternationInv_setConv cid _ st hInv ?_
    have := hspk c hc
    subst this
    exact parityAlternating_append c.history content (hInv cid c hc)

theorem alternationInv_generateStream (cid : String) (spk : Nat)
    (s : GenStream) (st : AppState) (hInv : AlternationInv st)
    (hspk : ∀ c, st cid = some c → spk = spkOfLen c.history.length) :
    AlternationInv (generateStream cid spk s st).1 := by
  unfold generateStream
  cases s.err with
  | some msg => exact hInv
  | none => exact alternationInv_appendTurn cid spk _ st hInv hspk

theorem alternationInv_incExchange (cid : String) (st : AppState)
    (hInv : AlternationInv st) : AlternationInv (incExchange cid st) := by
  unfold incExchange
  cases hc : st cid with
  | none => exact hInv
  | some c => exact alternationInv_setConv cid _ st hInv (hInv cid c hc)

theorem alternationInv_contIter (cid : String) (cfg : Config)
    (hist : List Turn) (s : GenStream) (st : AppState)
    (conv : Conversation) (hInv : AlternationInv st)
    (hc : st cid = some conv) (hh : conv.history = hist) :
    (∀ r, contIter cid cfg hist s st = Except.error r →
      AlternationInv r.1) ∧
    (∀ st1 evs1 hist1,
      contIter cid cfg hist s st = Except.ok (st1, evs1, hist1) →
        AlternationInv st1 ∧
          ∃ c1, st1 cid = some c1 ∧ c1.history = hist1) := by
  have hspk : ∀ c, st cid = some c →
      spkOfLen hist.length = spkOfLen c.history.length := by
    intro c hcc
    rw [hc] at hcc
    cases hcc
    rw [hh]
  have hgen : AlternationInv
      (generateStream cid (spkOfLen hist.length) s st).1 :=
    alternationInv_generateStream cid _ s st hInv hspk
  unfold contIter
  dsimp only
  cases (if spkOfLen hist.length = 1 then cfg.philosopher1
      else cfg.philosopher2) with
  | none =>
    exact ⟨fun r heq => by cases heq; exact hInv,
      fun st1 evs1 hist1 heq => by cases heq⟩
  | some philosopher =>
    dsimp only
    cases (if spkOfLen hist.length = 1 then cfg.author1
        else cfg.author2) with
    | none =>
      exact ⟨fun r heq => by cases heq; exact hInv,
        fun st1 evs1 hist1 heq => by cases heq⟩
    | some author =>
      dsimp only
      cases (if spkOfLen hist.length = 1 then cfg.model1
          else cfg.model2) with
      | none =>
        exact ⟨fun r heq => by cases heq; exact hInv,
          fun st1 evs1 hist1 heq => by cases heq⟩
      | some _model =>
        dsimp only
        cases cfg.topic with
        | none =>
          exact ⟨fun r heq => by cases heq; exact hInv,
            fun st1 evs1 hist1 heq => by cases heq⟩
        | some topic =>
          dsimp only
          cases createPrompt philosopher author topic hist true with
          | error e =>
            exact ⟨fun r heq => by cases heq; exact hInv,
              fun st1 evs1 hist1 heq => by cases heq⟩
          | ok _prompt =>
            dsimp only
            cases hlook : (generateStream cid (spkOfLen hist.length) s
                st).1 cid with
            | none =>
              exact ⟨fun r heq => by cases heq; exact hgen,
                fun st1 evs1 hist1 heq => by cases heq⟩
            | some c1 =>
              dsimp only
              refine ⟨fun r heq => (nomatch heq), ?_⟩
              intro st1 evs1 hist1 heq
              cases heq
              exact ⟨hgen, c1, hlook, rfl⟩

theorem alternationInv_continueOp (cid : String) (s0 s1 : GenStream)
    (st : AppState) (hInv : AlternationInv st) :
    AlternationInv (continueOp cid s0 s1 st).state := by
  unfold continueOp
  cases hc : st cid with
  | none => exact hInv
  | some conv =>
    show AlternationInv
      (continueThread cid conv.config conv.history s0 s1 st).1
    unfold continueThread
    cases h0 : contIter cid conv.config conv.history s0 st with
    | error r => exact (alternationInv_contIter cid conv.config
        conv.history s0 st conv hInv hc rfl).1 r h0
    | ok trp =>
      obtain ⟨st1, evs1, hist1⟩ := trp
      dsimp only
      obtain ⟨hInv1, c1, hc1, hh1⟩ := (alternationInv_contIter cid
        conv.config conv.history s0 st conv hInv hc rfl).2 st1 evs1
        hist1 h0
      cases h1 : contIter cid conv.config hist1 s1 st1 with
      | error r => exact (alternationInv_contIter cid conv.config
          hist1 s1 st1 c1 hInv1 hc1 hh1).1 r h1
      | ok trp1 =>
        obtain ⟨st2, evs2, hist2⟩ := trp1
        obtain ⟨hInv2, _⟩ := (alternationInv_contIter cid conv.config
          hist1 s1 st1 c1 hInv1 hc1 hh1).2 st2 evs2 hist2 h1
        exact alternationInv_incExchange cid st2 hInv2

theorem alternationInv_runOp (st : AppState) (op : Op)
    (hInv : AlternationInv st) : AlternationInv (runOp st op) := by
  cases op with
  | startD cid cfg s1 s2 =>
    show AlternationInv (startOp cid cfg s1 s2 st).state
    rw [startOp_eq]
    exact alternationInv_setConv cid _ st hInv parityAlternating_nil
  | contD cid s0 s1 => exact alternationInv_continueOp cid s0 s1 st hInv

theorem alternationInv_runOps (ops : List Op) :
    AlternationInv (runOps ops) := by
  unfold runOps
  generalize hst : emptyState = st0
  have h0 : AlternationInv st0 := hst ▸ alternationInv_empty
  clear hst
  induction ops generalizing st0 with
  | nil => exact h0
  | cons op ops ih =>
    exact ih (runOp st0 op) (alternationInv_runOp st0 op h0)

/-- C3: through any sequence of start and continue calls — each
completing before the next is issued, with arbitrary backend outcomes —
the roles of the turns in every registered conversation's history
strictly alternate starting with "first": the turn at index i carries
role "first" when i is even and "second" when i is odd. -/
theorem roles_alternate_through_operations (ops : List Op)
    (cid : String) (conv : Conversation)
    (h : runOps ops cid = some conv) :
    ∀ i (hi : i < conv.history.length),
      (conv.history.get ⟨i, hi⟩).role =
        (if i % 2 = 0 then Role.first else Role.second) := by
  intro i hi
  have hspk := alternationInv_runOps ops cid conv h i hi
  rw [Turn.role, hspk]
  exact speakerRole_spkOfLen i

/-- Witness for C3 at a concrete input: one start call followed by one
continue call on the same conversation. -/
theorem roles_alternate_through_operations_witness :
    runOps [Op.startD "a" scenarioConfig sampleStream sampleStream,
        Op.contD "a" sampleStream sampleStream] "a" =
      some ⟨scenarioConfig, [], 0⟩ ∧
    ∀ i (hi : i < (Conversation.mk scenarioConfig [] 0).history.length),
      ((Conversation.mk scenarioConfig [] 0).history.get ⟨i, hi⟩).role =
        (if i % 2 = 0 then Role.first else Role.second) :=
  ⟨by decide,
    roles_alternate_through_operations
      [Op.startD "a" scenarioConfig sampleStream sampleStream,
        Op.contD "a" sampleStream sampleStream] "a"
      ⟨scenarioConfig, [], 0⟩ (by decide)⟩

end DriftwoodApp
